import Mathlib

/-!
# Verification of the graph-builder core (`src/app.py`)

Shallow embedding of the two core components of the HugeGraph loader API:

* the schema compiler `json_to_groovy`, which turns a `SchemaDefinition`
  (property keys, vertex labels, edge labels) into a Groovy schema script, and
* the config path resolver `update_file_paths_in_config`, which rewrites file
  paths inside a JSON job configuration using a filename → location mapping.

Python values decoded from JSON are modelled by the inductive type `Json`;
Python runtime failures (`TypeError`, `AttributeError`, `KeyError`) raised by
the dynamically-typed resolver are modelled by `Except PyError`.
-/

namespace GraphBuilder

/-- A JSON value, as produced by Python's `json.loads`.  Object fields keep
insertion order, as Python dicts do; numeric values are modelled by `Int`
(the claims under study involve no fractional literals). -/
inductive Json : Type where
  | null : Json
  | bool (b : Bool) : Json
  | num (n : Int) : Json
  | str (s : String) : Json
  | arr (elems : List Json) : Json
  | obj (fields : List (String × Json)) : Json
deriving Repr

mutual

/-- Structural equality of JSON values (Python `==` on decoded JSON trees,
restricted to the comparisons the source performs, which only ever compare
against strings). -/
def Json.beq : Json → Json → Bool
  | .null, .null => true
  | .bool a, .bool b => a == b
  | .num a, .num b => a == b
  | .str a, .str b => a == b
  | .arr a, .arr b => Json.beqList a b
  | .obj a, .obj b => Json.beqFields a b
  | _, _ => false

def Json.beqList : List Json → List Json → Bool
  | [], [] => true
  | a :: as, b :: bs => Json.beq a b && Json.beqList as bs
  | _, _ => false

def Json.beqFields : List (String × Json) → List (String × Json) → Bool
  | [], [] => true
  | (k, v) :: as, (l, w) :: bs => k == l && Json.beq v w && Json.beqFields as bs
  | _, _ => false

end

/-- Python's `str.capitalize()`: first character uppercased, the rest
lowercased (ASCII behaviour, which covers the type tags of the data model). -/
def pyCapitalize (s : String) : String :=
  match s.data with
  | [] => ""
  | c :: cs => String.mk (c.toUpper :: cs.map Char.toLower)

example : pyCapitalize "int" = "Int" := by decide
example : pyCapitalize "TEXT" = "Text" := by decide

/-- A lowercase hexadecimal digit, for Python's `\xNN` escapes. -/
def hexDigit (n : Nat) : Char :=
  if n < 10 then Char.ofNat (48 + n) else Char.ofNat (87 + n)

/-- Python `repr` of one character of a string, given the chosen quote
character: backslash, the quote, newline, carriage return and tab get their
two-character escapes; other ASCII control characters (and DEL) become
`\xNN` with lowercase hex digits; every other character is kept as-is
(CPython additionally escapes unprintable code points above ASCII by Unicode
category, which no schema document of the data model contains; the model is
exact on ASCII). -/
def pyReprChar (quote c : Char) : String :=
  if c = '\\' then "\\\\"
  else if c = quote then "\\" ++ String.mk [quote]
  else if c = '\n' then "\\n"
  else if c = '\r' then "\\r"
  else if c = '\t' then "\\t"
  else if c.toNat < 32 || c.toNat = 127 then
    "\\x" ++ String.mk [hexDigit (c.toNat / 16), hexDigit (c.toNat % 16)]
  else String.mk [c]

/-- Python `repr` of a string: single quotes, unless the string contains a
single quote and no double quote, in which case double quotes. -/
def pyReprStr (s : String) : String :=
  let quote : Char := if s.data.contains '\'' && !s.data.contains '"' then '"' else '\''
  String.mk [quote] ++ String.join (s.data.map (pyReprChar quote)) ++ String.mk [quote]

mutual

/-- Python `repr` of a decoded JSON value: `None`, `True`/`False`, decimal
integers, quoted strings, and containers with `", "` / `": "` separators. -/
def pyReprValue : Json → String
  | .null => "None"
  | .bool b => if b then "True" else "False"
  | .num n => toString n
  | .str s => pyReprStr s
  | .arr elems => "[" ++ pyReprList elems ++ "]"
  | .obj fields => "\x7b" ++ pyReprFields fields ++ "\x7d"

/-- The comma-joined `repr`s of a list's elements. -/
def pyReprList : List Json → String
  | [] => ""
  | [j] => pyReprValue j
  | j :: rest => pyReprValue j ++ ", " ++ pyReprList rest

/-- The comma-joined `repr(key): repr(value)` entries of a dict. -/
def pyReprFields : List (String × Json) → String
  | [] => ""
  | [(k, v)] => pyReprStr k ++ ": " ++ pyReprValue v
  | (k, v) :: rest => pyReprStr k ++ ": " ++ pyReprValue v ++ ", " ++ pyReprFields rest

end

/-- Python `str()` of a decoded JSON value: the text itself for a string,
`repr` for everything else (for `None`, booleans, integers, lists and dicts,
`str` and `repr` agree). -/
def pyStrValue : Json → String
  | .str s => s
  | j => pyReprValue j

/-!
## Schema data model (pydantic models of `src/app.py`, lines 31–60)

Extension-option values (`options: Dict[str, Any]`) carry the tagged scalars
of the spec's data model — string, number, boolean — in dedicated
constructors, and any other decoded value (pydantic's `Any` performs no check
on option values) in `other`.
-/

/-- A value of an extension option (`Dict[str, Any]` entry).  `other` holds a
decoded value outside the scalar tags — never a string, number or boolean,
which use their own constructors. -/
inductive OptValue : Type where
  | str (s : String) : OptValue
  | int (n : Int) : OptValue
  | bool (b : Bool) : OptValue
  | other (j : Json) : OptValue
deriving Repr

/-- `class PropertyKey(BaseModel)` (app.py lines 31–37). -/
structure PropertyKey : Type where
  name : String
  type : String
  cardinality : Option String := none
  options : Option (List (String × OptValue)) := none
deriving Repr

/-- `class VertexLabel(BaseModel)` (app.py lines 39–46). -/
structure VertexLabel : Type where
  name : String
  properties : List String
  primary_keys : Option (List String) := none
  nullable_keys : Option (List String) := none
  id_strategy : Option String := none
  options : Option (List (String × OptValue)) := none
deriving Repr

/-- `class EdgeLabel(BaseModel)` (app.py lines 48–55). -/
structure EdgeLabel : Type where
  name : String
  source_label : String
  target_label : String
  properties : Option (List String) := none
  sort_keys : Option (List String) := none
  options : Option (List (String × OptValue)) := none
deriving Repr

/-- `class SchemaDefinition(BaseModel)` (app.py lines 57–60). -/
structure SchemaDefinition : Type where
  property_keys : List PropertyKey
  vertex_labels : List VertexLabel
  edge_labels : List EdgeLabel
deriving Repr

/-!
## Schema compiler (`json_to_groovy`, app.py lines 70–177)

Each Python `line += ...` step becomes one appended component.  Python
truthiness gates (`if prop.cardinality:`, `if vertex.properties:` …) skip the
clause both when the field is `None` and when it is an empty string / list /
dict.
-/

/-- Python `str(value)` as used by the f-string `f'.{opt_name}({opt_value})'`
(app.py line 100): numbers print as decimal literals, booleans as `True` /
`False` — Python's literal forms. -/
def pyStr : OptValue → String
  | .str s => s
  | .int n => toString n
  | .bool b => if b then "True" else "False"
  | .other j => pyStrValue j

/-- One chained clause per extension option (app.py lines 96–100, 139–143,
168–172): string values are double-quoted, other values go through `str`. -/
def optClause (opt : String × OptValue) : String :=
  match opt.2 with
  | .str s => "." ++ opt.1 ++ "(\"" ++ s ++ "\")"
  | v => "." ++ opt.1 ++ "(" ++ pyStr v ++ ")"

/-- The concatenation of all option clauses; `if prop.options:` is Python
truthiness, but an empty dict contributes no clause either way. -/
def optionsPart : Option (List (String × OptValue)) → String
  | none => ""
  | some opts => String.join (opts.map optClause)

/-- `', '.join([f'"{x}"' for x in xs])` (app.py lines 124, 129, 134, 158, 163). -/
def quoteJoin (xs : List String) : String :=
  String.intercalate ", " (xs.map (fun x => "\"" ++ x ++ "\""))

/-- A quoted-list clause guarded by Python truthiness of the list
(`if vertex.properties:` …): an empty list emits nothing. -/
def listClause (clause : String) (xs : List String) : String :=
  if xs.isEmpty then "" else "." ++ clause ++ "(" ++ quoteJoin xs ++ ")"

/-- The same clause for an `Optional[List[str]]` field: `None` and `[]` are
both falsy in Python, so neither emits a clause. -/
def optListClause (clause : String) : Option (List String) → String
  | none => ""
  | some xs => listClause clause xs

/-- `if prop.cardinality:` then `.cardinality("...")` (app.py lines 91–92);
`None` and the empty string are both falsy. -/
def cardinalityPart : Option String → String
  | none => ""
  | some c => if c.isEmpty then "" else ".cardinality(\"" ++ c ++ "\")"

/-- The `if/elif` ID-strategy chain (app.py lines 112–120).  The guard
`if vertex.id_strategy:` excludes `None` and `""`; an unrecognized tag falls
through every `elif` and emits nothing (`""` matches no branch either, so the
truthiness guard needs no separate case). -/
def idStrategyPart : Option String → String
  | none => ""
  | some s =>
      if s = "primary_key" then ".useCustomizeStringId()"
      else if s = "customize_number" then ".useCustomizeNumberId()"
      else if s = "customize_string" then ".useCustomizeStringId()"
      else if s = "automatic" then ".useAutomaticId()"
      else ""

/-- One property-key statement (app.py lines 88–103). -/
def propertyKeyLine (prop : PropertyKey) : String :=
  "schema.propertyKey(\"" ++ prop.name ++ "\").as" ++ pyCapitalize prop.type ++ "()"
    ++ cardinalityPart prop.cardinality
    ++ optionsPart prop.options
    ++ ".ifNotExist().create();"

/-- One vertex-label statement (app.py lines 108–146). -/
def vertexLabelLine (vertex : VertexLabel) : String :=
  "schema.vertexLabel(\"" ++ vertex.name ++ "\")"
    ++ idStrategyPart vertex.id_strategy
    ++ listClause "properties" vertex.properties
    ++ optListClause "primaryKeys" vertex.primary_keys
    ++ optListClause "nullableKeys" vertex.nullable_keys
    ++ optionsPart vertex.options
    ++ ".ifNotExist().create();"

/-- One edge-label statement (app.py lines 151–175). -/
def edgeLabelLine (edge : EdgeLabel) : String :=
  "schema.edgeLabel(\"" ++ edge.name ++ "\")"
    ++ ".sourceLabel(\"" ++ edge.source_label ++ "\")"
    ++ ".targetLabel(\"" ++ edge.target_label ++ "\")"
    ++ optListClause "properties" edge.properties
    ++ optListClause "sortKeys" edge.sort_keys
    ++ optionsPart edge.options
    ++ ".ifNotExist().create();"

/-- The `groovy_lines` list built by `json_to_groovy` (app.py lines 85–175):
property-key statements, an empty line, vertex-label statements, an empty
line, edge-label statements. -/
def groovyLines (schema : SchemaDefinition) : List String :=
  (schema.property_keys.map propertyKeyLine)
    ++ [""]
    ++ (schema.vertex_labels.map vertexLabelLine)
    ++ [""]
    ++ (schema.edge_labels.map edgeLabelLine)

/-- `json_to_groovy` on an already-validated `SchemaDefinition`
(app.py line 177: `'\n'.join(groovy_lines)`). -/
def json_to_groovy (schema : SchemaDefinition) : String :=
  String.intercalate "\n" (groovyLines schema)

example :
    json_to_groovy
      { property_keys := [{ name := "age", type := "int" }],
        vertex_labels := [], edge_labels := [] } =
      "schema.propertyKey(\"age\").asInt().ifNotExist().create();\n\n" := by
  decide

/-!
## Config path resolver (`update_file_paths_in_config`, app.py lines 273–309)

The resolver is dynamically typed Python over decoded JSON.  Runtime failures
it can raise are modelled explicitly: `"input" in item` on a non-container
raises `TypeError`; `.get` on a non-dict raises `AttributeError`; a missing
`"path"` key raises `KeyError`; `os.path.basename` of a non-string raises
`TypeError`.
-/

/-- A Python runtime error raised by the resolver. -/
inductive PyError : Type where
  | typeError : PyError
  | attributeError : PyError
  | keyError : PyError
deriving Repr, DecidableEq

/-- Dict lookup `d[k]` / key test helper: the value at the first matching key
(Python dicts have unique keys). -/
def getField (fields : List (String × Json)) (key : String) : Option Json :=
  match fields.find? (fun p => p.1 = key) with
  | some p => some p.2
  | none => none

/-- Dict update `d[k] = v` for a key already present: the value is replaced in
place, insertion order unchanged. -/
def setField (fields : List (String × Json)) (key : String) (v : Json) :
    List (String × Json) :=
  fields.map (fun p => if p.1 = key then (p.1, v) else p)

/-- Python `needle in hay` for strings: substring test. -/
def pyStrContains (needle hay : String) : Bool :=
  decide (needle.data <:+: hay.data)

/-- `os.path.basename` on a POSIX system: everything after the last `/`
(`p[p.rfind('/') + 1:]`). -/
def basename (path : String) : String :=
  String.mk ((path.data.reverse.takeWhile (fun c => c ≠ '/')).reverse)

/-- Lookup in the `file_mapping` dict (original filename → temp path). -/
def mappingLookup (mapping : List (String × String)) (filename : String) :
    Option String :=
  match mapping.find? (fun p => p.1 = filename) with
  | some p => some p.2
  | none => none

/-- Sequencing of fallible steps (the implicit control flow of straight-line
Python: an exception aborts, a normal value continues). -/
def andThen (e : Except ε α) (f : α → Except ε β) : Except ε β :=
  match e with
  | .error err => .error err
  | .ok a => f a

/-- Python `"input" in item` for an arbitrary decoded-JSON `item`: key test on
a dict, substring test on a string, element test on a list, `TypeError`
otherwise (app.py line 290). -/
def pyContainsKey (key : String) : Json → Except PyError Bool
  | .obj fields => .ok (fields.any (fun p => p.1 = key))
  | .str s => .ok (pyStrContains key s)
  | .arr elems => .ok (elems.any (fun j => Json.beq j (.str key)))
  | _ => .error .typeError

/-- The body of the `for item in items:` loop of `update_paths`
(app.py lines 289–297) on one item.  When the item is a dict with an `input`
dict of type `"file"` whose path's base name is in the mapping, the path is
overwritten; every other case is a pass-through or a runtime error exactly as
Python evaluates it. -/
def update_item (mapping : List (String × String)) (item : Json) :
    Except PyError Json :=
  andThen (pyContainsKey "input" item) fun hasInput =>
  if hasInput then
    match item with
    | .obj itemFields =>
      match getField itemFields "input" with
      | none => .ok item
      | some inp =>
        match inp with
        | .obj inpFields =>
          if (getField inpFields "type").elim false (fun t => Json.beq t (.str "file")) then
            match getField inpFields "path" with
            | none => .error .keyError
            | some (.str path) =>
              match mappingLookup mapping (basename path) with
              | some newPath =>
                  .ok (.obj (setField itemFields "input"
                    (.obj (setField inpFields "path" (.str newPath)))))
              | none => .ok item
            | some _ => .error .typeError
          else
            .ok item
        | _ => .error .attributeError
    | _ => .error .typeError
  else
    .ok item

/-- The `for` loop of `update_paths` over a Python list, items processed in
order, the first runtime error aborting the call. -/
def update_items (mapping : List (String × String)) :
    List Json → Except PyError (List Json)
  | [] => .ok []
  | item :: rest =>
      andThen (update_item mapping item) fun item' =>
      andThen (update_items mapping rest) fun rest' =>
      .ok (item' :: rest')

/-- `update_paths(items)` (app.py lines 288–300) for an arbitrary `items`
value.  Iterating a dict yields its keys (strings): a key containing
`"input"` as a substring is then indexed with `["input"]` and raises
`TypeError`, any other key passes.  Iterating a string yields one-character
strings, none of which can contain `"input"`, so strings pass through.
Numbers, booleans and `None` are not iterable. -/
def update_paths (mapping : List (String × String)) :
    Json → Except PyError Json
  | .arr elems =>
      andThen (update_items mapping elems) fun elems' =>
      .ok (.arr elems')
  | .obj fields =>
      if fields.any (fun p => pyStrContains "input" p.1) then .error .typeError
      else .ok (.obj fields)
  | .str s => .ok (.str s)
  | _ => .error .typeError

mutual

/-- `json.loads(json.dumps(config))` (app.py line 285): a deep copy of the
decoded-JSON tree, rebuilding every node. -/
def deep_copy : Json → Json
  | .null => .null
  | .bool b => .bool b
  | .num n => .num n
  | .str s => .str s
  | .arr elems => .arr (deep_copy_list elems)
  | .obj fields => .obj (deep_copy_fields fields)

/-- Deep copy of a JSON array's elements. -/
def deep_copy_list : List Json → List Json
  | [] => []
  | j :: rest => deep_copy j :: deep_copy_list rest

/-- Deep copy of a JSON object's fields. -/
def deep_copy_fields : List (String × Json) → List (String × Json)
  | [] => []
  | (k, v) :: rest => (k, deep_copy v) :: deep_copy_fields rest

end

/-- The part of `update_file_paths_in_config` after the deep copy
(app.py lines 303–309), acting on the copied tree.  When the copy is a dict,
`"vertices"` and then `"edges"` are rewritten if present; when it is a string
or a list, Python's `in` test runs and a hit raises `TypeError` on the
subsequent indexing, a miss returns the value unchanged; other values are not
containers and `in` raises `TypeError`. -/
def update_config_steps (copied : Json) (mapping : List (String × String)) :
    Except PyError Json :=
  match copied with
  | .obj fields =>
      andThen
        (match getField fields "vertices" with
         | some v =>
             andThen (update_paths mapping v) fun v' =>
             .ok (setField fields "vertices" v')
         | none => .ok fields) fun fields₁ =>
      andThen
        (match getField fields₁ "edges" with
         | some e =>
             andThen (update_paths mapping e) fun e' =>
             .ok (setField fields₁ "edges" e')
         | none => .ok fields₁) fun fields₂ =>
      .ok (.obj fields₂)
  | .str s =>
      if pyStrContains "vertices" s then .error .typeError
      else if pyStrContains "edges" s then .error .typeError
      else .ok (.str s)
  | .arr elems =>
      if elems.any (fun j => Json.beq j (.str "vertices")) then .error .typeError
      else if elems.any (fun j => Json.beq j (.str "edges")) then .error .typeError
      else .ok (.arr elems)
  | _ => .error .typeError

/-- `update_file_paths_in_config(config, file_mapping)`
(app.py lines 273–309): deep-copy the config, then rewrite paths in the copy. -/
def update_file_paths_in_config (config : Json)
    (mapping : List (String × String)) : Except PyError Json :=
  update_config_steps (deep_copy config) mapping

/-!
## Input validation (`SchemaDefinition(**schema_json)`, app.py lines 80–83)

`json_to_groovy` guards with `isinstance(schema_json, dict)`: a dict goes
through the pydantic constructor, which validates it before any Groovy text
is built and raises `pydantic.ValidationError` — carrying the location of the
offending field — on failure.  A non-dict input is routed *around* pydantic
(line 83 assigns it unvalidated) and the program then fails at line 88 with a
plain `AttributeError` when `.property_keys` is accessed on it.  The model
below mirrors pydantic's structural validation of the declared models
(required fields, field types), returning the first error found, in
field-declaration order.  Extra keys are ignored, `null` is accepted for
`Optional` fields, and plain `str` / `List` fields place no constraint on the
*content* of the strings — in particular the `type`, `cardinality` and
`id_strategy` tags are free-form `str` fields, not closed enumerations — and
`Dict[str, Any]` option *values* are accepted without any check.
-/

/-- A pydantic validation error: the location path of the offending field and
a message. -/
structure ValidationError : Type where
  loc : List String
  msg : String
deriving Repr, DecidableEq

/-- Validate a required `str` field. -/
def vStr (loc : List String) : Json → Except ValidationError String
  | .str s => .ok s
  | _ => .error ⟨loc, "Input should be a valid string"⟩

/-- Fetch a required field of an object, then validate it. -/
def vRequired (loc : List String) (fields : List (String × Json)) (key : String)
    (f : Json → Except ValidationError α) : Except ValidationError α :=
  match getField fields key with
  | none => .error ⟨loc ++ [key], "Field required"⟩
  | some j => f j

/-- Validate an `Optional[str]` field: absent or `null` become `None`. -/
def vOptStr (loc : List String) : Option Json → Except ValidationError (Option String)
  | none => .ok none
  | some .null => .ok none
  | some (.str s) => .ok (some s)
  | some _ => .error ⟨loc, "Input should be a valid string"⟩

/-- Validate the elements of a `List[str]`, indexing each element in the
error location. -/
def vStrElems (loc : List String) : Nat → List Json → Except ValidationError (List String)
  | _, [] => .ok []
  | i, j :: rest =>
      andThen (vStr (loc ++ [toString i]) j) fun s =>
      andThen (vStrElems loc (i + 1) rest) fun ss =>
      .ok (s :: ss)

/-- Validate a `List[str]` field. -/
def vStrList (loc : List String) : Json → Except ValidationError (List String)
  | .arr elems => vStrElems loc 0 elems
  | _ => .error ⟨loc, "Input should be a valid list"⟩

/-- Validate an `Optional[List[str]]` field. -/
def vOptStrList (loc : List String) :
    Option Json → Except ValidationError (Option (List String))
  | none => .ok none
  | some .null => .ok none
  | some j =>
      andThen (vStrList loc j) fun xs =>
      .ok (some xs)

/-- One value of the `options` dict, tagged: pydantic's `Any` accepts every
value, so this is a total conversion, never an error — scalars get their
dedicated tags, anything else is carried as-is in `other`. -/
def vOptValue : Json → OptValue
  | .str s => .str s
  | .num n => .int n
  | .bool b => .bool b
  | j => .other j

/-- Validate an `Optional[Dict[str, Any]]` options field: the field itself
must be a dict (or absent / `null`), its values are unconstrained. -/
def vOptions (loc : List String) :
    Option Json → Except ValidationError (Option (List (String × OptValue)))
  | none => .ok none
  | some .null => .ok none
  | some (.obj fields) => .ok (some (fields.map (fun p => (p.1, vOptValue p.2))))
  | some _ => .error ⟨loc, "Input should be a valid dictionary"⟩

/-- Validate one element of `property_keys` against the `PropertyKey` model. -/
def vPropertyKey (i : Nat) : Json → Except ValidationError PropertyKey
  | .obj fields =>
      let loc := ["property_keys", toString i]
      andThen (vRequired loc fields "name" (vStr (loc ++ ["name"]))) fun name =>
      andThen (vRequired loc fields "type" (vStr (loc ++ ["type"]))) fun ty =>
      andThen (vOptStr (loc ++ ["cardinality"]) (getField fields "cardinality")) fun card =>
      andThen (vOptions (loc ++ ["options"]) (getField fields "options")) fun opts =>
      .ok { name := name, type := ty, cardinality := card, options := opts }
  | _ => .error ⟨["property_keys", toString i], "Input should be a valid dictionary"⟩

/-- Validate one element of `vertex_labels` against the `VertexLabel` model. -/
def vVertexLabel (i : Nat) : Json → Except ValidationError VertexLabel
  | .obj fields =>
      let loc := ["vertex_labels", toString i]
      andThen (vRequired loc fields "name" (vStr (loc ++ ["name"]))) fun name =>
      andThen (vRequired loc fields "properties" (vStrList (loc ++ ["properties"]))) fun props =>
      andThen (vOptStrList (loc ++ ["primary_keys"]) (getField fields "primary_keys")) fun pks =>
      andThen (vOptStrList (loc ++ ["nullable_keys"]) (getField fields "nullable_keys")) fun nks =>
      andThen (vOptStr (loc ++ ["id_strategy"]) (getField fields "id_strategy")) fun ids =>
      andThen (vOptions (loc ++ ["options"]) (getField fields "options")) fun opts =>
      .ok { name := name, properties := props, primary_keys := pks,
            nullable_keys := nks, id_strategy := ids, options := opts }
  | _ => .error ⟨["vertex_labels", toString i], "Input should be a valid dictionary"⟩

/-- Validate one element of `edge_labels` against the `EdgeLabel` model. -/
def vEdgeLabel (i : Nat) : Json → Except ValidationError EdgeLabel
  | .obj fields =>
      let loc := ["edge_labels", toString i]
      andThen (vRequired loc fields "name" (vStr (loc ++ ["name"]))) fun name =>
      andThen (vRequired loc fields "source_label" (vStr (loc ++ ["source_label"]))) fun srcL =>
      andThen (vRequired loc fields "target_label" (vStr (loc ++ ["target_label"]))) fun tgtL =>
      andThen (vOptStrList (loc ++ ["properties"]) (getField fields "properties")) fun props =>
      andThen (vOptStrList (loc ++ ["sort_keys"]) (getField fields "sort_keys")) fun sks =>
      andThen (vOptions (loc ++ ["options"]) (getField fields "options")) fun opts =>
      .ok { name := name, source_label := srcL, target_label := tgtL,
            properties := props, sort_keys := sks, options := opts }
  | _ => .error ⟨["edge_labels", toString i], "Input should be a valid dictionary"⟩

/-- Validate the elements of one of the three top-level lists. -/
def vElems (f : Nat → Json → Except ValidationError α) :
    Nat → List Json → Except ValidationError (List α)
  | _, [] => .ok []
  | i, j :: rest =>
      andThen (f i j) fun x =>
      andThen (vElems f (i + 1) rest) fun xs =>
      .ok (x :: xs)

/-- Validate a required top-level list field of `SchemaDefinition`. -/
def vTopList (fields : List (String × Json)) (key : String)
    (f : Nat → Json → Except ValidationError α) : Except ValidationError (List α) :=
  match getField fields key with
  | none => .error ⟨[key], "Field required"⟩
  | some (.arr elems) => vElems f 0 elems
  | some _ => .error ⟨[key], "Input should be a valid list"⟩

/-- Pydantic validation `SchemaDefinition(**schema_json)` of a schema dict
(only dicts reach pydantic, through the `isinstance` guard of line 80). -/
def validateSchemaDefinition (fields : List (String × Json)) :
    Except ValidationError SchemaDefinition :=
  andThen (vTopList fields "property_keys" vPropertyKey) fun pks =>
  andThen (vTopList fields "vertex_labels" vVertexLabel) fun vls =>
  andThen (vTopList fields "edge_labels" vEdgeLabel) fun els =>
  .ok { property_keys := pks, vertex_labels := vls, edge_labels := els }

/-- A failure of `json_to_groovy` on a raw decoded input: the pydantic
`ValidationError` raised by the constructor for a dict (line 81), or the
`AttributeError` raised at line 88 — `schema.property_keys` on a value that
has no such attribute — for a non-dict that lines 82–83 passed through
unvalidated. -/
inductive CompileFailure : Type where
  | validation (e : ValidationError) : CompileFailure
  | attributeError : CompileFailure
deriving Repr, DecidableEq

/-- `json_to_groovy` on a raw decoded input (app.py lines 80–83 then
85–177): a dict is validated and then compiled, a validation failure
producing no output at all; a non-dict bypasses validation and fails at
line 88 with a plain `AttributeError`, again before any output. -/
def json_to_groovy_checked (schema_json : Json) : Except CompileFailure String :=
  match schema_json with
  | .obj fields =>
      match validateSchemaDefinition fields with
      | .error e => .error (.validation e)
      | .ok schema => .ok (json_to_groovy schema)
  | _ => .error .attributeError

/-!
## Helper lemmas
-/

theorem andThen_ok (a : α) (f : α → Except ε β) : andThen (.ok a) f = f a := rfl

theorem andThen_error (err : ε) (f : α → Except ε β) :
    andThen (.error err) f = .error err := rfl

theorem beq_str_iff (t : Json) (s : String) : Json.beq t (.str s) = true ↔ t = .str s := by
  cases t <;> simp [Json.beq]

theorem getField_cons (p : String × Json) (rest : List (String × Json)) (key : String) :
    getField (p :: rest) key = if p.1 = key then some p.2 else getField rest key := by
  by_cases hk : p.1 = key <;> simp [getField, List.find?, hk]

theorem any_key_of_getField_some {fields : List (String × Json)} {key : String}
    {v : Json} (h : getField fields key = some v) :
    fields.any (fun p => p.1 = key) = true := by
  induction fields with
  | nil => simp [getField] at h
  | cons p rest ih =>
      rw [getField_cons] at h
      by_cases hk : p.1 = key
      · simp [hk]
      · rw [if_neg hk] at h
        simp [List.any_cons, hk, ih h]

theorem any_key_of_getField_none {fields : List (String × Json)} {key : String}
    (h : getField fields key = none) :
    fields.any (fun p => p.1 = key) = false := by
  induction fields with
  | nil => rfl
  | cons p rest ih =>
      rw [getField_cons] at h
      by_cases hk : p.1 = key
      · simp [hk] at h
      · rw [if_neg hk] at h
        simp [List.any_cons, hk, ih h]

theorem getField_setField_same {fields : List (String × Json)} {key : String}
    {v : Json} (w : Json) (h : getField fields key = some v) :
    getField (setField fields key w) key = some w := by
  induction fields with
  | nil => simp [getField] at h
  | cons p rest ih =>
      rw [getField_cons] at h
      by_cases hk : p.1 = key
      · simp [setField, getField_cons, hk]
      · rw [if_neg hk] at h
        simp only [setField, List.map_cons, if_neg hk]
        rw [getField_cons, if_neg hk]
        exact ih h

theorem getField_setField_of_ne {fields : List (String × Json)} {key k : String}
    (w : Json) (h : k ≠ key) :
    getField (setField fields key w) k = getField fields k := by
  induction fields with
  | nil => rfl
  | cons p rest ih =>
      by_cases hk : p.1 = key
      · simp only [setField, List.map_cons, if_pos hk]
        rw [getField_cons, getField_cons, hk]
        rw [if_neg (fun hke => h hke.symm), if_neg (fun hke => h hke.symm)]
        exact ih
      · simp only [setField, List.map_cons, if_neg hk]
        rw [getField_cons, getField_cons]
        by_cases hpk : p.1 = k
        · simp [hpk]
        · rw [if_neg hpk, if_neg hpk]
          exact ih

theorem setField_keys (fields : List (String × Json)) (key : String) (w : Json) :
    (setField fields key w).map Prod.fst = fields.map Prod.fst := by
  induction fields with
  | nil => rfl
  | cons p rest ih =>
      by_cases hk : p.1 = key <;> simp [setField, hk] at ih ⊢ <;> exact ih

mutual

theorem deep_copy_eq : ∀ (j : Json), deep_copy j = j
  | .null => rfl
  | .bool _ => rfl
  | .num _ => rfl
  | .str _ => rfl
  | .arr elems => congrArg Json.arr (deep_copy_list_eq elems)
  | .obj fields => congrArg Json.obj (deep_copy_fields_eq fields)

theorem deep_copy_list_eq : ∀ (l : List Json), deep_copy_list l = l
  | [] => rfl
  | j :: rest => by rw [deep_copy_list, deep_copy_eq j, deep_copy_list_eq rest]

theorem deep_copy_fields_eq : ∀ (fs : List (String × Json)), deep_copy_fields fs = fs
  | [] => rfl
  | (k, v) :: rest => by rw [deep_copy_fields, deep_copy_eq v, deep_copy_fields_eq rest]

end

/-!
## Claims about the schema compiler
-/

/-- C3: a property key with name `n`, type `t`, no cardinality and no options
compiles to exactly one statement — the property-key clause naming `n`, the
type accessor obtained by capitalizing `t` (type `"int"` yields the int
accessor), and the create-if-absent close — with no cardinality clause; each
schema element contributes exactly one line; and a present cardinality
(`single`/`list`/`set`, the data model's enumeration) is emitted between the
type accessor and the close clause, never before the type accessor. -/
theorem c3_property_key_statement :
    (∀ n t : String,
        propertyKeyLine { name := n, type := t } =
          "schema.propertyKey(\"" ++ n ++ "\").as" ++ pyCapitalize t ++ "()"
            ++ ".ifNotExist().create();")
    ∧ propertyKeyLine { name := "age", type := "int" } =
        "schema.propertyKey(\"age\").asInt().ifNotExist().create();"
    ∧ (∀ schema : SchemaDefinition,
        (groovyLines schema).length =
          schema.property_keys.length + schema.vertex_labels.length +
            schema.edge_labels.length + 2)
    ∧ (∀ (prop : PropertyKey) (c : String),
        prop.cardinality = some c →
        (c = "single" ∨ c = "list" ∨ c = "set") →
        propertyKeyLine prop =
          "schema.propertyKey(\"" ++ prop.name ++ "\").as"
            ++ pyCapitalize prop.type ++ "()"
            ++ ".cardinality(\"" ++ c ++ "\")"
            ++ optionsPart prop.options
            ++ ".ifNotExist().create();") := by
  refine ⟨?_, ?_, ?_, ?_⟩
  · intro n t
    simp [propertyKeyLine, cardinalityPart, optionsPart, String.append_empty]
  · decide
  · intro schema
    simp [groovyLines]
    omega
  · intro prop c hc hmem
    have hne : ¬ c.isEmpty := by rcases hmem with rfl | rfl | rfl <;> decide
    simp only [propertyKeyLine, hc, cardinalityPart]
    rw [if_neg hne]
    simp only [String.append_assoc]

/-- Witness for C3: the cardinality clause of a concrete property key sits
between the type accessor and the close clause. -/
theorem c3_witness :
    propertyKeyLine { name := "tags", type := "text", cardinality := some "list" } =
      "schema.propertyKey(\"tags\").asText().cardinality(\"list\").ifNotExist().create();" := by
  have h := c3_property_key_statement.2.2.2
    { name := "tags", type := "text", cardinality := some "list" } "list" rfl
    (Or.inr (Or.inl rfl))
  exact h.trans (by decide)

/-- C4: a present ID-generation strategy is translated through the fixed
lookup — `primary_key` and `customize_string` both to the customize-string-id
clause, `customize_number` to the customize-number-id clause, `automatic` to
the automatic-id clause — and the clause is emitted right after the vertex
name, unconditionally, whatever `primary_keys` holds. -/
theorem c4_id_strategy_lookup :
    (∀ v : VertexLabel, v.id_strategy = some "primary_key" →
        vertexLabelLine v =
          "schema.vertexLabel(\"" ++ v.name ++ "\")" ++ ".useCustomizeStringId()"
            ++ listClause "properties" v.properties
            ++ optListClause "primaryKeys" v.primary_keys
            ++ optListClause "nullableKeys" v.nullable_keys
            ++ optionsPart v.options ++ ".ifNotExist().create();")
    ∧ (∀ v : VertexLabel, v.id_strategy = some "customize_number" →
        vertexLabelLine v =
          "schema.vertexLabel(\"" ++ v.name ++ "\")" ++ ".useCustomizeNumberId()"
            ++ listClause "properties" v.properties
            ++ optListClause "primaryKeys" v.primary_keys
            ++ optListClause "nullableKeys" v.nullable_keys
            ++ optionsPart v.options ++ ".ifNotExist().create();")
    ∧ (∀ v : VertexLabel, v.id_strategy = some "customize_string" →
        vertexLabelLine v =
          "schema.vertexLabel(\"" ++ v.name ++ "\")" ++ ".useCustomizeStringId()"
            ++ listClause "properties" v.properties
            ++ optListClause "primaryKeys" v.primary_keys
            ++ optListClause "nullableKeys" v.nullable_keys
            ++ optionsPart v.options ++ ".ifNotExist().create();")
    ∧ (∀ v : VertexLabel, v.id_strategy = some "automatic" →
        vertexLabelLine v =
          "schema.vertexLabel(\"" ++ v.name ++ "\")" ++ ".useAutomaticId()"
            ++ listClause "properties" v.properties
            ++ optListClause "primaryKeys" v.primary_keys
            ++ optListClause "nullableKeys" v.nullable_keys
            ++ optionsPart v.options ++ ".ifNotExist().create();")
    ∧ idStrategyPart (some "primary_key") = idStrategyPart (some "customize_string") := by
  refine ⟨?_, ?_, ?_, ?_, rfl⟩ <;>
    · intro v h
      rw [vertexLabelLine, h]
      rfl

/-- Witness for C4: the `primary_key` strategy clause is emitted even though
primary keys are also declared. -/
theorem c4_witness :
    vertexLabelLine
      { name := "person", properties := ["name"], primary_keys := some ["name"],
        id_strategy := some "primary_key" } =
      "schema.vertexLabel(\"person\").useCustomizeStringId().properties(\"name\").primaryKeys(\"name\").ifNotExist().create();" := by
  have h := c4_id_strategy_lookup.1
    { name := "person", properties := ["name"], primary_keys := some ["name"],
      id_strategy := some "primary_key" } rfl
  exact h.trans (by decide)

/-- C5: every extension option produces exactly one chained clause named
after the option — string values double-quoted, numeric and boolean values as
unquoted literals in their (Python) literal form — and every emitted
statement ends with the literal two-clause suffix `ifNotExist().create();`. -/
theorem c5_option_clauses_and_close :
    (∀ (o s : String), optClause (o, .str s) = "." ++ o ++ "(\"" ++ s ++ "\")")
    ∧ (∀ (o : String) (n : Int), optClause (o, .int n) = "." ++ o ++ "(" ++ toString n ++ ")")
    ∧ (∀ (o : String) (b : Bool),
        optClause (o, .bool b) = "." ++ o ++ "(" ++ (if b then "True" else "False") ++ ")")
    ∧ (∀ opts : List (String × OptValue), (opts.map optClause).length = opts.length)
    ∧ (∀ (prop : PropertyKey) (opts : List (String × OptValue)),
        prop.options = some opts →
        propertyKeyLine prop =
          "schema.propertyKey(\"" ++ prop.name ++ "\").as" ++ pyCapitalize prop.type
            ++ "()" ++ cardinalityPart prop.cardinality
            ++ String.join (opts.map optClause)
            ++ ".ifNotExist().create();")
    ∧ (∀ prop : PropertyKey, ∃ pre, propertyKeyLine prop = pre ++ "ifNotExist().create();")
    ∧ (∀ v : VertexLabel, ∃ pre, vertexLabelLine v = pre ++ "ifNotExist().create();")
    ∧ (∀ e : EdgeLabel, ∃ pre, edgeLabelLine e = pre ++ "ifNotExist().create();") := by
  have hsplit : (".ifNotExist().create();" : String) = "." ++ "ifNotExist().create();" := rfl
  refine ⟨fun o s => rfl, fun o n => rfl, ?_, fun opts => by simp, ?_, ?_, ?_, ?_⟩
  · intro o b
    cases b <;> rfl
  · intro prop opts h
    rw [propertyKeyLine, h]
    rfl
  · intro prop
    exact ⟨_, by rw [propertyKeyLine, hsplit, ← String.append_assoc]⟩
  · intro v
    exact ⟨_, by rw [vertexLabelLine, hsplit, ← String.append_assoc]⟩
  · intro e
    exact ⟨_, by rw [edgeLabelLine, hsplit, ← String.append_assoc]⟩

/-- Witness for C5: a concrete property key with a string, a numeric and a
boolean extension option. -/
theorem c5_witness :
    propertyKeyLine
      { name := "age", type := "int",
        options := some [("comment", .str "years"), ("limit", .int 120), ("strict", .bool true)] } =
      "schema.propertyKey(\"age\").asInt().comment(\"years\").limit(120).strict(True).ifNotExist().create();" := by
  have h := c5_option_clauses_and_close.2.2.2.2.1
    { name := "age", type := "int",
      options := some [("comment", .str "years"), ("limit", .int 120), ("strict", .bool true)] }
    [("comment", .str "years"), ("limit", .int 120), ("strict", .bool true)] rfl
  exact h.trans (by decide)

/-- C8: a schema whose three element lists are all empty compiles to no
statements at all — the line list is exactly the two blank separator lines —
and repeated calls return byte-identical output. -/
theorem c8_empty_schema :
    groovyLines { property_keys := [], vertex_labels := [], edge_labels := [] } = ["", ""]
    ∧ json_to_groovy { property_keys := [], vertex_labels := [], edge_labels := [] } = "\n"
    ∧ (∀ schema : SchemaDefinition, json_to_groovy schema = json_to_groovy schema) :=
  ⟨rfl, rfl, fun _ => rfl⟩

/-- C9: an ID-strategy tag that is none of the four recognized values is
silently ignored — the vertex statement is byte-identical to the one with no
strategy at all, and no error is raised. -/
theorem c9_unknown_id_strategy_ignored :
    ∀ (v : VertexLabel) (s : String),
      s ≠ "primary_key" → s ≠ "customize_number" → s ≠ "customize_string" →
      s ≠ "automatic" →
      vertexLabelLine { v with id_strategy := some s } =
        vertexLabelLine { v with id_strategy := none } := by
  intro v s h1 h2 h3 h4
  simp [vertexLabelLine, idStrategyPart, h1, h2, h3, h4]

/-- Witness for C9: the unrecognized tag `"uuid"` yields the same statement
as an absent strategy. -/
theorem c9_witness :
    vertexLabelLine
      { name := "person", properties := ["name"], id_strategy := some "uuid" } =
      vertexLabelLine { name := "person", properties := ["name"], id_strategy := none } := by
  exact c9_unknown_id_strategy_ignored
    { name := "person", properties := ["name"], id_strategy := none }
    "uuid" (by decide) (by decide) (by decide) (by decide)

/-- C10: a list-valued field that is present but empty emits no clause —
`properties`, `primary_keys`, `nullable_keys` on a vertex and `properties`,
`sort_keys` on an edge — and an empty list is byte-identical in output to an
absent field. -/
theorem c10_empty_list_fields :
    (∀ v : VertexLabel,
        vertexLabelLine { v with primary_keys := some [] } =
          vertexLabelLine { v with primary_keys := none })
    ∧ (∀ v : VertexLabel,
        vertexLabelLine { v with nullable_keys := some [] } =
          vertexLabelLine { v with nullable_keys := none })
    ∧ (∀ v : VertexLabel,
        vertexLabelLine { v with properties := [] } =
          "schema.vertexLabel(\"" ++ v.name ++ "\")"
            ++ idStrategyPart v.id_strategy
            ++ optListClause "primaryKeys" v.primary_keys
            ++ optListClause "nullableKeys" v.nullable_keys
            ++ optionsPart v.options
            ++ ".ifNotExist().create();")
    ∧ (∀ e : EdgeLabel,
        edgeLabelLine { e with properties := some [] } =
          edgeLabelLine { e with properties := none })
    ∧ (∀ e : EdgeLabel,
        edgeLabelLine { e with sort_keys := some [] } =
          edgeLabelLine { e with sort_keys := none }) := by
  refine ⟨?_, ?_, ?_, ?_, ?_⟩ <;>
    intro x <;>
    simp [vertexLabelLine, edgeLabelLine, optListClause, listClause,
      String.append_empty]

/-!
## Claims about the config path resolver
-/

/-- C1: per item of `vertices` / `edges` — a file-typed input whose path's
base name is in the mapping gets its `path` overwritten and every other field
(of the item and of its `input` object) is unchanged, keys and order
preserved; an item without an `input` key, with a non-`"file"` input type, or
with an unmapped base filename passes through byte-for-byte; and the resolver
applies this item-wise processing to the `vertices` list and then the `edges`
list, leaving every other top-level field unchanged. -/
theorem c1_resolve_file_paths :
    (∀ (mapping : List (String × String)) (itemFields inpFields : List (String × Json))
        (path newPath : String),
      getField itemFields "input" = some (.obj inpFields) →
      getField inpFields "type" = some (.str "file") →
      getField inpFields "path" = some (.str path) →
      mappingLookup mapping (basename path) = some newPath →
      ∃ itemFields' inpFields',
        update_item mapping (.obj itemFields) = .ok (.obj itemFields') ∧
        itemFields'.map Prod.fst = itemFields.map Prod.fst ∧
        (∀ k, k ≠ "input" → getField itemFields' k = getField itemFields k) ∧
        getField itemFields' "input" = some (.obj inpFields') ∧
        inpFields'.map Prod.fst = inpFields.map Prod.fst ∧
        (∀ k, k ≠ "path" → getField inpFields' k = getField inpFields k) ∧
        getField inpFields' "path" = some (.str newPath))
    ∧ (∀ (mapping : List (String × String)) (itemFields : List (String × Json)),
      getField itemFields "input" = none →
      update_item mapping (.obj itemFields) = .ok (.obj itemFields))
    ∧ (∀ (mapping : List (String × String)) (itemFields inpFields : List (String × Json)),
      getField itemFields "input" = some (.obj inpFields) →
      (∀ t, getField inpFields "type" = some t → t ≠ .str "file") →
      update_item mapping (.obj itemFields) = .ok (.obj itemFields))
    ∧ (∀ (mapping : List (String × String)) (itemFields inpFields : List (String × Json))
        (path : String),
      getField itemFields "input" = some (.obj inpFields) →
      getField inpFields "type" = some (.str "file") →
      getField inpFields "path" = some (.str path) →
      mappingLookup mapping (basename path) = none →
      update_item mapping (.obj itemFields) = .ok (.obj itemFields))
    ∧ (∀ (mapping : List (String × String)) (fields : List (String × Json))
        (vs es vs' es' : List Json),
      getField fields "vertices" = some (.arr vs) →
      getField fields "edges" = some (.arr es) →
      update_items mapping vs = .ok vs' →
      update_items mapping es = .ok es' →
      ∃ fields',
        update_file_paths_in_config (.obj fields) mapping = .ok (.obj fields') ∧
        getField fields' "vertices" = some (.arr vs') ∧
        getField fields' "edges" = some (.arr es') ∧
        (∀ k, k ≠ "vertices" → k ≠ "edges" → getField fields' k = getField fields k) ∧
        fields'.map Prod.fst = fields.map Prod.fst) := by
  refine ⟨?_, ?_, ?_, ?_, ?_⟩
  · intro mapping itemFields inpFields path newPath h1 h2 h3 h4
    refine ⟨setField itemFields "input" (.obj (setField inpFields "path" (.str newPath))),
            setField inpFields "path" (.str newPath), ?_, setField_keys _ _ _,
            fun k hk => getField_setField_of_ne _ hk,
            getField_setField_same _ h1, setField_keys _ _ _,
            fun k hk => getField_setField_of_ne _ hk,
            getField_setField_same _ h3⟩
    have hcont : pyContainsKey "input" (Json.obj itemFields) = .ok true := by
      simp [pyContainsKey, any_key_of_getField_some h1]
    rw [update_item, hcont, andThen_ok]
    simp [h1, h2, h3, h4, Json.beq]
  · intro mapping itemFields h1
    have hcont : pyContainsKey "input" (Json.obj itemFields) = .ok false := by
      simp [pyContainsKey, any_key_of_getField_none h1]
    rw [update_item, hcont, andThen_ok]
    simp
  · intro mapping itemFields inpFields h1 ht
    have hcont : pyContainsKey "input" (Json.obj itemFields) = .ok true := by
      simp [pyContainsKey, any_key_of_getField_some h1]
    rw [update_item, hcont, andThen_ok]
    rcases hty : getField inpFields "type" with _ | t
    · simp [h1, hty]
    · have hb : Json.beq t (.str "file") = false := by
        cases hb' : Json.beq t (.str "file")
        · rfl
        · exact absurd ((beq_str_iff t "file").mp hb') (ht t hty)
      simp [h1, hty, hb]
  · intro mapping itemFields inpFields path h1 h2 h3 h4
    have hcont : pyContainsKey "input" (Json.obj itemFields) = .ok true := by
      simp [pyContainsKey, any_key_of_getField_some h1]
    rw [update_item, hcont, andThen_ok]
    simp [h1, h2, h3, h4, Json.beq]
  · intro mapping fields vs es vs' es' hv he hvs hes
    have hne : ("edges" : String) ≠ "vertices" := by decide
    have hne' : ("vertices" : String) ≠ "edges" := by decide
    refine ⟨setField (setField fields "vertices" (.arr vs')) "edges" (.arr es'),
            ?_, ?_, ?_, ?_, ?_⟩
    · rw [update_file_paths_in_config, deep_copy_eq]
      have h1 : getField (setField fields "vertices" (.arr vs')) "edges" =
          some (.arr es) := by
        rw [getField_setField_of_ne _ hne, he]
      simp only [update_config_steps, hv, h1, update_paths, hvs, hes, andThen_ok]
    · rw [getField_setField_of_ne _ hne']
      exact getField_setField_same _ hv
    · have h1 : getField (setField fields "vertices" (.arr vs')) "edges" =
          some (.arr es) := by
        rw [getField_setField_of_ne _ hne, he]
      exact getField_setField_same _ h1
    · intro k hkv hke
      rw [getField_setField_of_ne _ hke, getField_setField_of_ne _ hkv]
    · rw [setField_keys, setField_keys]

/-- Witness for C1 at the spec's own example: a `people.csv` input path is
rewritten to the mapped temp location. -/
theorem c1_witness :
    ∃ itemFields' inpFields',
      update_item [("people.csv", "/tmp/jobX/people.csv")]
        (.obj [("label", .str "person"),
               ("input", .obj [("type", .str "file"),
                               ("path", .str "/any/dir/people.csv")])]) =
        .ok (.obj itemFields') ∧
      itemFields'.map Prod.fst =
        ([("label", Json.str "person"),
          ("input", Json.obj [("type", .str "file"),
                              ("path", .str "/any/dir/people.csv")])]).map Prod.fst ∧
      (∀ k, k ≠ "input" →
        getField itemFields' k =
          getField [("label", Json.str "person"),
                    ("input", Json.obj [("type", .str "file"),
                                        ("path", .str "/any/dir/people.csv")])] k) ∧
      getField itemFields' "input" = some (.obj inpFields') ∧
      inpFields'.map Prod.fst =
        ([("type", Json.str "file"), ("path", Json.str "/any/dir/people.csv")]).map Prod.fst ∧
      (∀ k, k ≠ "path" →
        getField inpFields' k =
          getField [("type", Json.str "file"),
                    ("path", Json.str "/any/dir/people.csv")] k) ∧
      getField inpFields' "path" = some (.str "/tmp/jobX/people.csv") :=
  c1_resolve_file_paths.1 [("people.csv", "/tmp/jobX/people.csv")]
    [("label", .str "person"),
     ("input", .obj [("type", .str "file"), ("path", .str "/any/dir/people.csv")])]
    [("type", .str "file"), ("path", .str "/any/dir/people.csv")]
    "/any/dir/people.csv" "/tmp/jobX/people.csv" rfl rfl rfl (by decide)

/-- C2: the resolver never mutates its input — in the embedding's value
semantics the caller's tree is immutable by construction, and the theorem
verifies the code's deep-copy-then-mutate structure: the returned tree is
computed from a deep copy that rebuilds every node yet is deep-equal to the
input, so the result depends only on the input value (determinism) and the
caller's configuration is deep-equal to its pre-call value after the call. -/
theorem c2_resolve_nonmutating :
    ∀ (config : Json) (mapping : List (String × String)),
      update_file_paths_in_config config mapping = update_config_steps config mapping
      ∧ deep_copy config = config
      ∧ update_file_paths_in_config config mapping =
          update_file_paths_in_config config mapping := by
  intro config mapping
  refine ⟨?_, deep_copy_eq config, rfl⟩
  rw [update_file_paths_in_config, deep_copy_eq]

/-- Counterexample to C7: `vertices` present with a *string* value — not a
sequence of objects — yet the resolver succeeds (Python iterates the string's
characters, none of which contains `"input"`), returning the configuration
unchanged instead of failing. -/
theorem c7_counterexample :
    update_file_paths_in_config (.obj [("vertices", Json.str "rows.csv")]) [] =
      .ok (.obj [("vertices", Json.str "rows.csv")])
    ∧ ∀ e : PyError,
        update_file_paths_in_config (.obj [("vertices", Json.str "rows.csv")]) [] ≠
          .error e :=
  ⟨rfl, fun _ h => Except.noConfusion h⟩

/-- C7 as amended: missing `vertices` / `edges` keys never fail; a number,
boolean or null value for `vertices` fails (with a plain dynamic `TypeError`,
the code has no dedicated shape error); but the failure is not equivalent to
"present and not a sequence of objects": a string value passes through
unchanged, and a sequence of objects can still fail when an item's `input`
member is not an object. -/
theorem c7_resolver_shape_behaviour :
    (∀ (fields : List (String × Json)) (mapping : List (String × String)),
      getField fields "vertices" = none → getField fields "edges" = none →
      update_file_paths_in_config (.obj fields) mapping = .ok (.obj fields))
    ∧ (∀ (fields : List (String × Json)) (mapping : List (String × String)) (v : Json),
      getField fields "vertices" = some v →
      (v = .null ∨ (∃ b, v = .bool b) ∨ (∃ n, v = .num n)) →
      update_file_paths_in_config (.obj fields) mapping = .error .typeError)
    ∧ (∀ (fields : List (String × Json)) (mapping : List (String × String)) (s : String),
      getField fields "vertices" = some (.str s) →
      getField fields "edges" = none →
      update_file_paths_in_config (.obj fields) mapping =
        .ok (.obj (setField fields "vertices" (.str s))))
    ∧ (∀ (fields : List (String × Json)) (mapping : List (String × String)),
      getField fields "vertices" = some (.arr [.obj [("input", .num 5)]]) →
      update_file_paths_in_config (.obj fields) mapping = .error .attributeError) := by
  refine ⟨?_, ?_, ?_, ?_⟩
  · intro fields mapping hv he
    rw [update_file_paths_in_config, deep_copy_eq]
    simp only [update_config_steps, hv, he, andThen_ok]
  · intro fields mapping v hv hshape
    rw [update_file_paths_in_config, deep_copy_eq]
    rcases hshape with rfl | ⟨b, rfl⟩ | ⟨n, rfl⟩ <;>
      simp only [update_config_steps, hv, update_paths, andThen_error]
  · intro fields mapping s hv he
    rw [update_file_paths_in_config, deep_copy_eq]
    have h1 : getField (setField fields "vertices" (.str s)) "edges" = none := by
      rw [getField_setField_of_ne _ (by decide : ("edges" : String) ≠ "vertices"), he]
    simp only [update_config_steps, hv, update_paths, andThen_ok, h1]
  · intro fields mapping hv
    rw [update_file_paths_in_config, deep_copy_eq]
    have hitem : update_item mapping (.obj [("input", Json.num 5)]) =
        .error .attributeError := rfl
    simp only [update_config_steps, hv, update_paths, update_items, hitem,
      andThen_error, andThen_ok]

/-- Witness for the amended C7: a config with neither key resolves without
error, and one whose `vertices` is `null` fails. -/
theorem c7_witness :
    update_file_paths_in_config (.obj [("x", .num 1)]) [] = .ok (.obj [("x", .num 1)])
    ∧ update_file_paths_in_config (.obj [("vertices", .null)]) [] =
        .error .typeError :=
  ⟨c7_resolver_shape_behaviour.1 [("x", .num 1)] [] rfl rfl,
   c7_resolver_shape_behaviour.2.1 [("vertices", .null)] [] .null rfl (Or.inl rfl)⟩

/-!
## Claims about input validation of the schema compiler
-/

/-- Counterexample to C6: a schema whose property key carries the unknown
type tag `"banana"` — a recognized field with an invalid value — is *not*
rejected: validation succeeds and the compiler emits `.asBanana()`. -/
theorem c6_counterexample :
    json_to_groovy_checked
      (.obj [("property_keys", .arr [.obj [("name", .str "x"), ("type", .str "banana")]]),
             ("vertex_labels", .arr []),
             ("edge_labels", .arr [])]) =
      .ok "schema.propertyKey(\"x\").asBanana().ifNotExist().create();\n\n"
    ∧ ∀ e : CompileFailure,
        json_to_groovy_checked
          (.obj [("property_keys", .arr [.obj [("name", .str "x"), ("type", .str "banana")]]),
                 ("vertex_labels", .arr []),
                 ("edge_labels", .arr [])]) ≠ .error e :=
  ⟨rfl, fun _ h => Except.noConfusion h⟩

/-- C6 as amended: compiling a dict fails with a ValidationError — producing
no output, never a partial script — whenever a mandatory field is missing or
of the wrong type, and the error identifies the offending element by its
location path; a well-typed field holding a recognized-but-invalid value
(such as an unknown type tag) is not rejected; and a non-dict input bypasses
validation entirely (the `isinstance` guard) and fails with a plain
AttributeError carrying no location, not a ValidationError. -/
theorem c6_validation_behaviour :
    (∀ fields : List (String × Json),
      getField fields "property_keys" = none →
      json_to_groovy_checked (.obj fields) =
        .error (.validation ⟨["property_keys"], "Field required"⟩))
    ∧ (∀ (fields pkFields : List (String × Json)) (rest : List Json),
      getField fields "property_keys" = some (.arr (.obj pkFields :: rest)) →
      getField pkFields "name" = none →
      json_to_groovy_checked (.obj fields) =
        .error (.validation ⟨["property_keys", "0", "name"], "Field required"⟩))
    ∧ (∀ (fields pkFields : List (String × Json)) (rest : List Json) (j : Json),
      getField fields "property_keys" = some (.arr (.obj pkFields :: rest)) →
      getField pkFields "name" = some j →
      (∀ s, j ≠ .str s) →
      json_to_groovy_checked (.obj fields) =
        .error (.validation ⟨["property_keys", "0", "name"],
                             "Input should be a valid string"⟩))
    ∧ (∀ j : Json, (∀ fields, j ≠ .obj fields) →
      json_to_groovy_checked j = .error .attributeError)
    ∧ (∀ (j : Json) (e : CompileFailure),
      json_to_groovy_checked j = .error e →
      ∀ out, json_to_groovy_checked j ≠ .ok out) := by
  refine ⟨?_, ?_, ?_, ?_, ?_⟩
  · intro fields h
    simp only [json_to_groovy_checked, validateSchemaDefinition, vTopList, h,
      andThen_error]
  · intro fields pkFields rest h hname
    simp only [json_to_groovy_checked, validateSchemaDefinition, vTopList, h,
      vElems, vPropertyKey, vRequired, hname, andThen_error]
    rfl
  · intro fields pkFields rest j h hname hns
    have hstr : vStr (["property_keys", toString 0] ++ ["name"]) j =
        .error ⟨["property_keys", toString 0] ++ ["name"],
                "Input should be a valid string"⟩ := by
      cases j
      case str s => exact absurd rfl (hns s)
      all_goals rfl
    simp only [json_to_groovy_checked, validateSchemaDefinition, vTopList, h,
      vElems, vPropertyKey, vRequired, hname, hstr, andThen_error]
    rfl
  · intro j hne
    cases j
    case obj fields => exact absurd rfl (hne fields)
    all_goals rfl
  · intro j e he out hok
    rw [he] at hok
    exact Except.noConfusion hok

/-- Witness for the amended C6: the empty dict is missing the mandatory
`property_keys` field and is rejected with that location. -/
theorem c6_witness :
    json_to_groovy_checked (.obj []) =
      .error (.validation ⟨["property_keys"], "Field required"⟩) :=
  c6_validation_behaviour.1 [] rfl

end GraphBuilder
